import Mathlib

/-!
Verification of the logging-bootstrap module `src/utils/logger.py` of the
Predictive-Maintenance-System repository.

The module is configuration plumbing around a process-wide logging backend:

* `_resolve_logging_config_path` picks a configuration file from an ordered
  candidate list (explicit override, environment variable, project default);
* `setup_logging` loads the resolved file, or falls back to a console plus
  rotating-file default configuration;
* `get_logger` returns a named logger handle.

The embedding models the external world (environment variables, filesystem
probes, the config-file loader, directory creation, file opening) as a record
of functions, and the process-wide logging state (root level, root handler
list, created directories, opened files, the record of configuration loads,
and the log calls issued by the module) as an explicit state threaded through
`setup_logging`.  Fallible operations return `Except Unit LogState`: an
`Except.error` models an exception escaping to the caller.
-/

/-- Result of probing a path with `Path.is_file()`: the path is a regular
file, it is not (missing, or a directory), or the probe itself raised an
OS-level error (permission denied, invalid path). -/
inductive Probe where
  | isFile
  | notFile
  | err
deriving DecidableEq, Repr

/-- Python logging level constants used by the module. -/
def DEBUG_LEVEL : Nat := 10

/-- Python logging level INFO. -/
def INFO_LEVEL : Nat := 20

/-- Python logging level ERROR (the level used by `Logger.exception`). -/
def ERROR_LEVEL : Nat := 40

/-- The default relative path `Path("config") / "logging.conf"`. -/
def DEFAULT_LOGGING_CONF_PATH : String := "config/logging.conf"

/-- The `__name__` of the module, under which its internal diagnostics are
logged. -/
def MODULE_LOGGER : String := "src.utils.logger"

/-- The format string passed both to `basicConfig` and to the rotating file
handler formatter. -/
def LOG_FORMAT : String := "%(asctime)s | %(levelname)-8s | %(name)s | %(message)s"

/-- The date format passed both to `basicConfig` and to the rotating file
handler formatter. -/
def LOG_DATEFMT : String := "%Y-%m-%d %H:%M:%S"

/-- The candidate list built by `_resolve_logging_config_path`, taking the
override argument and the value of the consulted environment variable.
Python truthiness: an override or environment value that is the empty string
is falsy and is not appended; the default path is always appended last. -/
def configCandidates (override_path : Option String) (env_value : Option String) :
    List String :=
  (match override_path with
   | some p => if p = "" then [] else [p]
   | none => []) ++
  (match env_value with
   | some v => if v = "" then [] else [v]
   | none => []) ++
  [DEFAULT_LOGGING_CONF_PATH]

/-- The probing loop of `_resolve_logging_config_path`: return the first
candidate whose `is_file()` probe answers true; a probe error is caught by
the `try/except: continue` and the candidate is skipped. -/
def probeFirst (probe : String → Probe) : List String → Option String
  | [] => none
  | c :: rest => if probe c = Probe.isFile then some c else probeFirst probe rest

/-- The external world seen by the module: environment variables, filesystem
probes, the behaviour of `logging.config.fileConfig` on each path (`none`
models an exception, `some eff` a successful load installing the handlers
and level described by the file), and whether directory creation and
log-file opening succeed. -/
structure ConfigEffect where
  handlers : List Nat
  level : Nat
deriving DecidableEq, Repr

/-- The ambient environment and filesystem behaviour for one run. -/
structure World where
  env : String → Option String
  probe : String → Probe
  fileConfig : String → Option ConfigEffect
  mkdirOk : String → Bool
  openOk : String → Bool

/-- Shallow embedding of `_resolve_logging_config_path(override_path,
env_var)`.  It reads the environment and probes the filesystem but mutates
nothing: it takes no logging state and returns only the chosen path, so it
is side-effect free by construction. -/
def resolve_logging_config_path (override_path : Option String) (env_var : String)
    (env : String → Option String) (probe : String → Probe) : Option String :=
  probeFirst probe (configCandidates override_path (env env_var))

/-- The candidate list exactly as the specification words it: the override
path if given, the environment value if set, then the default path, with no
emptiness filtering. -/
def specCandidates (override_path : Option String) (env_value : Option String) :
    List String :=
  override_path.toList ++ env_value.toList ++ [DEFAULT_LOGGING_CONF_PATH]

/-- A handler attached to the root logger: the console `StreamHandler`
installed by `basicConfig`, the `RotatingFileHandler` added by the fallback
path, or an opaque handler installed by `fileConfig` from the configuration
file. -/
inductive Handler where
  | console (fmt : String) (datefmt : String) (level : Nat)
  | rotatingFile (path : String) (maxBytes : Nat) (backupCount : Nat)
      (encoding : String) (fmt : String) (datefmt : String) (level : Nat)
  | fromConfig (id : Nat)
deriving DecidableEq, Repr

/-- A log call issued by the module itself (via `Logger.debug` or
`Logger.exception`); `excInfo` is true when an exception record is attached. -/
structure Record where
  logger : String
  level : Nat
  msg : String
  excInfo : Bool
deriving DecidableEq, Repr

/-- The process-wide logging state: the root logger level and handler list,
the directories created and files opened by the module, the ledger of
`fileConfig` invocations (path and the `disable_existing_loggers` flag
passed), and the log calls the module issued. -/
structure LogState where
  rootLevel : Nat
  rootHandlers : List Handler
  dirs : List String
  files : List String
  configCalls : List (String × Bool)
  records : List Record
deriving DecidableEq, Repr

/-- The fallback level computed by `setup_logging`:
`logging.DEBUG if os.getenv("DEBUG", "0") == "1" else logging.INFO`. -/
def fallbackLevel (env : String → Option String) : Nat :=
  if (env "DEBUG").getD "0" = "1" then DEBUG_LEVEL else INFO_LEVEL

/-- Effect of `logging.basicConfig(level, format, datefmt, force=True)`:
with `force=True` every handler previously attached to the root logger is
removed and closed, then a single console `StreamHandler` with the given
formatter is attached, and the root level is set. -/
def basicConfigForce (level : Nat) (st : LogState) : LogState :=
  { st with
    rootLevel := level,
    rootHandlers := [Handler.console LOG_FORMAT LOG_DATEFMT level] }

/-- The fallback branch of `setup_logging`: `basicConfig(force=True)`, then
`Path("logs/app.log").parent.mkdir(parents=True, exist_ok=True)`, then
construction and attachment of the `RotatingFileHandler`, then a debug log
call.  The `mkdir` and the handler construction are outside any `try`, so
their failure escapes as an exception (`Except.error`). -/
def fallbackConfig (w : World) (st : LogState) : Except Unit LogState :=
  let lvl := fallbackLevel w.env
  let st1 := basicConfigForce lvl st
  if w.mkdirOk "logs" then
    let st2 := { st1 with
      dirs := if "logs" ∈ st1.dirs then st1.dirs else st1.dirs ++ ["logs"] }
    if w.openOk "logs/app.log" then
      Except.ok { st2 with
        files := st2.files ++ ["logs/app.log"],
        rootHandlers := st2.rootHandlers ++
          [Handler.rotatingFile "logs/app.log" 5000000 5 "utf-8"
            LOG_FORMAT LOG_DATEFMT lvl],
        records := st2.records ++
          [⟨MODULE_LOGGER, DEBUG_LEVEL,
            "Logging configured with basicConfig + RotatingFileHandler (no config file found)",
            false⟩] }
    else Except.error ()
  else Except.error ()

/-- Shallow embedding of `setup_logging(config_path, env_var)`.  Resolve a
path; if one is found, call `fileConfig` on it with
`disable_existing_loggers=False` inside a `try`: on success log a debug line
and return, on any exception log it via `Logger.exception` (ERROR level,
exception record attached) and fall through; with no resolved path, or
after a load failure, run the fallback configuration. -/
def setup_logging (config_path : Option String) (env_var : String) (w : World)
    (st : LogState) : Except Unit LogState :=
  match resolve_logging_config_path config_path env_var w.env w.probe with
  | some p =>
    match w.fileConfig p with
    | some eff =>
      Except.ok { st with
        rootHandlers := eff.handlers.map Handler.fromConfig,
        rootLevel := eff.level,
        configCalls := st.configCalls ++ [(p, false)],
        records := st.records ++
          [⟨MODULE_LOGGER, DEBUG_LEVEL, "Logging configured from file: " ++ p, false⟩] }
    | none =>
      fallbackConfig w { st with
        records := st.records ++
          [⟨MODULE_LOGGER, ERROR_LEVEL,
            "Failed to configure logging from " ++ p ++ ". Falling back to basicConfig.",
            true⟩] }
  | none => fallbackConfig w st

/-- The two ways `setup_logging` reaches its fallback branch: no candidate
resolved, or the resolved file failed to load. -/
def FallbackTaken (config_path : Option String) (env_var : String) (w : World) : Prop :=
  resolve_logging_config_path config_path env_var w.env w.probe = none ∨
  ∃ p, resolve_logging_config_path config_path env_var w.env w.probe = some p ∧
    w.fileConfig p = none

/-- The fixed default logger name used by `get_logger`. -/
def DEFAULT_LOGGER_NAME : String := "predictive_maintenance_system"

/-- Shallow embedding of `get_logger(name)`: `logging.getLogger` is a
name-keyed registry, so a logger handle is identified by the name finally
used.  `name if name else DEFAULT_LOGGER_NAME` maps `None` and the falsy
empty string to the default name.  The function is total: it never fails. -/
def get_logger (name : Option String) : String :=
  match name with
  | some n => if n = "" then DEFAULT_LOGGER_NAME else n
  | none => DEFAULT_LOGGER_NAME

/-- The registry of per-name logger levels, modelling the mutable state
shared by all handles with the same name. -/
abbrev LoggerRegistry := String → Nat

/-- `Logger.setLevel` through a handle: updates the level stored under the
handle name. -/
def setLoggerLevel (reg : LoggerRegistry) (name : String) (lvl : Nat) : LoggerRegistry :=
  fun n => if n = name then lvl else reg n

/-- Concrete world: nothing in the environment, every probe answers
`notFile`, every config load fails, filesystem writes succeed. -/
def wDefault : World :=
  ⟨fun _ => none, fun _ => Probe.notFile, fun _ => none, fun _ => true, fun _ => true⟩

/-- Concrete world: an override file and an environment-variable file both
exist, the environment variable is set, so precedence is observable. -/
def wOverride : World :=
  ⟨fun v => if v = "LOG_CFG" then some "/tmp/env.conf" else none,
   fun p => if p = "/tmp/custom.conf" ∨ p = "/tmp/env.conf" ∨ p = DEFAULT_LOGGING_CONF_PATH
            then Probe.isFile else Probe.notFile,
   fun _ => some ⟨[0], 20⟩, fun _ => true, fun _ => true⟩

/-- Concrete world: every probe answers `isFile`, environment empty. -/
def wAllFiles : World :=
  ⟨fun _ => none, fun _ => Probe.isFile, fun _ => none, fun _ => true, fun _ => true⟩

lemma probeFirst_skip_head (probe : String → Probe) (c : String) (l : List String)
    (h : probe c ≠ Probe.isFile) : probeFirst probe (c :: l) = probeFirst probe l := by
  simp [probeFirst, h]

lemma probeFirst_demote (probe : String → Probe) (l : List String) :
    probeFirst (fun x => if probe x = Probe.err then Probe.notFile else probe x) l =
      probeFirst probe l := by
  induction l with
  | nil => rfl
  | cons c rest ih => cases h : probe c <;> simp [probeFirst, h, ih]

lemma probeFirst_none_of (probe : String → Probe) (l : List String)
    (h : ∀ c ∈ l, probe c ≠ Probe.isFile) : probeFirst probe l = none := by
  induction l with
  | nil => rfl
  | cons c rest ih =>
    rw [probeFirst_skip_head probe c rest (h c (List.mem_cons_self c rest))]
    exact ih (fun x hx => h x (List.mem_cons_of_mem c hx))

/-- C1: `_resolve_logging_config_path` follows the candidate list
[override if given, environment value if set, default path] and returns the
first candidate probing as a regular file; in particular a given override
that probes as a regular file is returned, whatever the environment variable
and the default file are.  The hypothesis records the filesystem fact that
the empty path (which `pathlib` renders as the current directory) is never a
regular file; the code never probes the empty path at all. -/
theorem resolve_follows_spec_order (o : Option String) (ev : String) (w : World)
    (hempty : w.probe "" ≠ Probe.isFile) :
    resolve_logging_config_path o ev w.env w.probe =
      probeFirst w.probe (specCandidates o (w.env ev)) ∧
    (∀ p, o = some p → w.probe p = Probe.isFile →
      resolve_logging_config_path o ev w.env w.probe = some p) := by
  have hskip : ∀ l, probeFirst w.probe ("" :: l) = probeFirst w.probe l :=
    fun l => probeFirst_skip_head w.probe "" l hempty
  constructor
  · unfold resolve_logging_config_path
    cases o with
    | none =>
      cases hev : w.env ev with
      | none => rfl
      | some v =>
        by_cases hv : v = ""
        · subst hv; simp [configCandidates, specCandidates, hskip]
        · simp [configCandidates, specCandidates, hv]
    | some p =>
      cases hev : w.env ev with
      | none =>
        by_cases hp : p = ""
        · subst hp; simp [configCandidates, specCandidates, hskip]
        · simp [configCandidates, specCandidates, hp]
      | some v =>
        by_cases hp : p = "" <;> by_cases hv : v = ""
        · subst hp; subst hv; simp [configCandidates, specCandidates, hskip]
        · subst hp; simp [configCandidates, specCandidates, hskip, hv]
        · subst hv
          by_cases hpa : w.probe p = Probe.isFile <;>
            simp [configCandidates, specCandidates, probeFirst, hp, hpa, hempty]
        · simp [configCandidates, specCandidates, hp, hv]
  · intro p hp hfile
    subst hp
    by_cases hp0 : p = ""
    · exact absurd (hp0 ▸ hfile) hempty
    · simp [resolve_logging_config_path, configCandidates, hp0, probeFirst, hfile]

/-- Closed instance of `resolve_follows_spec_order`: in a world where the
override file, the environment file and the default file all exist, the
override wins. -/
theorem resolve_follows_spec_order_witness :
    resolve_logging_config_path (some "/tmp/custom.conf") "LOG_CFG"
      wOverride.env wOverride.probe = some "/tmp/custom.conf" :=
  (resolve_follows_spec_order (some "/tmp/custom.conf") "LOG_CFG" wOverride
    (by decide)).2 "/tmp/custom.conf" rfl (by decide)

/-- C8: a probe error on a candidate is swallowed and the candidate treated
as absent (replacing every erroring probe by a clean negative answer does
not change the result), and when no candidate probes as a regular file the
function returns `none`.  The function takes no logging state and returns
only the chosen path, so it has no side effects by construction. -/
theorem resolve_probe_errors_swallowed (o : Option String) (ev : String)
    (env : String → Option String) (probe : String → Probe) :
    resolve_logging_config_path o ev env probe =
      resolve_logging_config_path o ev env
        (fun x => if probe x = Probe.err then Probe.notFile else probe x) ∧
    ((∀ c ∈ configCandidates o (env ev), probe c ≠ Probe.isFile) →
      resolve_logging_config_path o ev env probe = none) := by
  constructor
  · unfold resolve_logging_config_path
    exact (probeFirst_demote probe (configCandidates o (env ev))).symm
  · intro h
    exact probeFirst_none_of probe (configCandidates o (env ev)) h

/-- Closed instance of `resolve_probe_errors_swallowed`: when every probe
errors, resolution returns `none` instead of propagating the error. -/
theorem resolve_probe_errors_swallowed_witness :
    resolve_logging_config_path none "LOG_CFG" (fun _ => none) (fun _ => Probe.err) = none :=
  (resolve_probe_errors_swallowed none "LOG_CFG" (fun _ => none)
    (fun _ => Probe.err)).2 (by decide)

/-- C10: implicit emptiness handling.  An empty-string override and an
environment variable set to the empty string contribute nothing to the
candidate list (Python truthiness), the empty path is never probed, and with
the environment variable unset an empty override resolves to the default
path exactly when that file exists. -/
theorem resolve_empty_like_absent (o : Option String) (ev : String)
    (envv : Option String) (w : World) (henv : w.env ev = none) :
    configCandidates (some "") envv = configCandidates none envv ∧
    configCandidates o (some "") = configCandidates o none ∧
    "" ∉ configCandidates o envv ∧
    resolve_logging_config_path (some "") ev w.env w.probe =
      (if w.probe DEFAULT_LOGGING_CONF_PATH = Probe.isFile
       then some DEFAULT_LOGGING_CONF_PATH else none) := by
  refine ⟨rfl, ?_, ?_, ?_⟩
  · cases o <;> simp [configCandidates]
  · have hd : DEFAULT_LOGGING_CONF_PATH ≠ "" := by decide
    cases o with
    | none =>
      cases envv with
      | none => simp [configCandidates, hd.symm]
      | some v =>
        by_cases hv : v = "" <;> simp_all [configCandidates, hd.symm, Ne.symm]
    | some p =>
      cases envv with
      | none =>
        by_cases hp : p = "" <;> simp_all [configCandidates, hd.symm, Ne.symm]
      | some v =>
        by_cases hp : p = "" <;> by_cases hv : v = "" <;>
          simp_all [configCandidates, hd.symm, Ne.symm]
  · simp [resolve_logging_config_path, configCandidates, henv, probeFirst]

/-- Closed instance of `resolve_empty_like_absent` in a world where the
default file exists: the empty override resolves to the default path. -/
theorem resolve_empty_like_absent_witness :
    configCandidates (some "") (some "x") = configCandidates none (some "x") ∧
    configCandidates (some "y") (some "") = configCandidates (some "y") none ∧
    "" ∉ configCandidates (some "y") (some "x") ∧
    resolve_logging_config_path (some "") "LOG_CFG" wAllFiles.env wAllFiles.probe =
      (if wAllFiles.probe DEFAULT_LOGGING_CONF_PATH = Probe.isFile
       then some DEFAULT_LOGGING_CONF_PATH else none) :=
  resolve_empty_like_absent (some "y") "LOG_CFG" (some "x") wAllFiles rfl

lemma mem_dirs_after (l : List String) :
    "logs" ∈ (if "logs" ∈ l then l else l ++ ["logs"]) := by
  by_cases h : "logs" ∈ l <;> simp [h]

lemma fallbackConfig_ok_state (w : World) (st : LogState)
    (hm : w.mkdirOk "logs" = true) (ho : w.openOk "logs/app.log" = true) :
    fallbackConfig w st = Except.ok
      { rootLevel := fallbackLevel w.env,
        rootHandlers :=
          [Handler.console LOG_FORMAT LOG_DATEFMT (fallbackLevel w.env),
           Handler.rotatingFile "logs/app.log" 5000000 5 "utf-8"
             LOG_FORMAT LOG_DATEFMT (fallbackLevel w.env)],
        dirs := if "logs" ∈ st.dirs then st.dirs else st.dirs ++ ["logs"],
        files := st.files ++ ["logs/app.log"],
        configCalls := st.configCalls,
        records := st.records ++
          [⟨MODULE_LOGGER, DEBUG_LEVEL,
            "Logging configured with basicConfig + RotatingFileHandler (no config file found)",
            false⟩] } := by
  simp [fallbackConfig, basicConfigForce, hm, ho]

lemma fallbackConfig_err (w : World) (st : LogState)
    (h : w.mkdirOk "logs" = false ∨ w.openOk "logs/app.log" = false) :
    fallbackConfig w st = Except.error () := by
  cases h with
  | inl hm => simp [fallbackConfig, hm]
  | inr ho =>
    by_cases hm : w.mkdirOk "logs" <;> simp [fallbackConfig, hm, ho]

/-- Shared helper: whenever `setup_logging` takes the fallback branch and the
filesystem operations succeed, it returns normally with the fallback console
and rotating-file handlers installed, the fallback level set, the `logs`
directory present and the log file opened, the previous records preserved. -/
lemma setup_fallback_result (cfg : Option String) (ev : String) (w : World)
    (st : LogState) (hfb : FallbackTaken cfg ev w)
    (hm : w.mkdirOk "logs" = true) (ho : w.openOk "logs/app.log" = true) :
    ∃ st', setup_logging cfg ev w st = Except.ok st' ∧
      st'.rootLevel = fallbackLevel w.env ∧
      st'.rootHandlers =
        [Handler.console LOG_FORMAT LOG_DATEFMT (fallbackLevel w.env),
         Handler.rotatingFile "logs/app.log" 5000000 5 "utf-8"
           LOG_FORMAT LOG_DATEFMT (fallbackLevel w.env)] ∧
      "logs" ∈ st'.dirs ∧ "logs/app.log" ∈ st'.files ∧
      (∀ r ∈ st.records, r ∈ st'.records) := by
  cases hfb with
  | inl h =>
    have heq : setup_logging cfg ev w st = fallbackConfig w st := by
      unfold setup_logging
      rw [h]
    rw [heq, fallbackConfig_ok_state w st hm ho]
    refine ⟨_, rfl, rfl, rfl, mem_dirs_after st.dirs, by simp, ?_⟩
    intro r hr
    simp only [List.mem_append]
    exact Or.inl hr
  | inr hex =>
    obtain ⟨p, hp, hfc⟩ := hex
    have heq : setup_logging cfg ev w st =
        fallbackConfig w { st with records := st.records ++
          [⟨MODULE_LOGGER, ERROR_LEVEL,
            "Failed to configure logging from " ++ p ++ ". Falling back to basicConfig.",
            true⟩] } := by
      simp only [setup_logging, hp, hfc]
    rw [heq, fallbackConfig_ok_state w _ hm ho]
    refine ⟨_, rfl, rfl, rfl, mem_dirs_after st.dirs, by simp, ?_⟩
    intro r hr
    simp only [List.mem_append]
    exact Or.inl (Or.inl hr)

/-- The logging state at interpreter start: root logger at WARNING, no
handlers, nothing created or logged yet. -/
def st0 : LogState := ⟨30, [], [], [], [], []⟩

/-- Extract the state of a normal return, with a default for the error case. -/
def okOr (e : Except Unit LogState) (d : LogState) : LogState :=
  match e with
  | Except.ok s => s
  | Except.error _ => d

/-- Concrete world where creating the `logs` directory fails (for example,
an unwritable working directory). -/
def wBadFs : World :=
  ⟨fun _ => none, fun _ => Probe.notFile, fun _ => none, fun _ => false, fun _ => true⟩

/-- Concrete world where the default config file exists and loads
successfully, installing one handler at level 15. -/
def wConfig : World :=
  ⟨fun _ => none,
   fun p => if p = DEFAULT_LOGGING_CONF_PATH then Probe.isFile else Probe.notFile,
   fun p => if p = DEFAULT_LOGGING_CONF_PATH then some ⟨[7], 15⟩ else none,
   fun _ => true, fun _ => true⟩

/-- Concrete world where the default config file exists but loading it
raises (malformed file). -/
def wLoadFail : World :=
  ⟨fun _ => none,
   fun p => if p = DEFAULT_LOGGING_CONF_PATH then Probe.isFile else Probe.notFile,
   fun _ => none, fun _ => true, fun _ => true⟩

/-- Concrete world with `DEBUG=1` in the environment and no config file. -/
def wDebugEnv : World :=
  ⟨fun v => if v = "DEBUG" then some "1" else none,
   fun _ => Probe.notFile, fun _ => none, fun _ => true, fun _ => true⟩

/-- C3: on the fallback path (no config resolved, or load failed) and with
the filesystem cooperating, `setup_logging` leaves the root logger with
exactly the fallback console handler followed by the rotating file handler
on `logs/app.log` (max size 5000000 bytes, 5 backups, UTF-8, same format
and level as the console), whatever handlers were installed before; the
`logs` directory exists afterwards and the log file is opened. -/
theorem setup_fallback_installs_console_and_file (cfg : Option String)
    (ev : String) (w : World) (st : LogState) (hfb : FallbackTaken cfg ev w)
    (hm : w.mkdirOk "logs" = true) (ho : w.openOk "logs/app.log" = true) :
    ∃ st', setup_logging cfg ev w st = Except.ok st' ∧
      st'.rootHandlers =
        [Handler.console LOG_FORMAT LOG_DATEFMT (fallbackLevel w.env),
         Handler.rotatingFile "logs/app.log" 5000000 5 "utf-8"
           LOG_FORMAT LOG_DATEFMT (fallbackLevel w.env)] ∧
      "logs" ∈ st'.dirs ∧ "logs/app.log" ∈ st'.files := by
  obtain ⟨st', hok, _, hh, hd, hf, _⟩ := setup_fallback_result cfg ev w st hfb hm ho
  exact ⟨st', hok, hh, hd, hf⟩

/-- Closed instance of `setup_fallback_installs_console_and_file` on a world
with no config file anywhere and a writable filesystem. -/
theorem setup_fallback_installs_console_and_file_witness :
    ∃ st', setup_logging none "LOG_CFG" wDefault st0 = Except.ok st' ∧
      st'.rootHandlers =
        [Handler.console LOG_FORMAT LOG_DATEFMT (fallbackLevel wDefault.env),
         Handler.rotatingFile "logs/app.log" 5000000 5 "utf-8"
           LOG_FORMAT LOG_DATEFMT (fallbackLevel wDefault.env)] ∧
      "logs" ∈ st'.dirs ∧ "logs/app.log" ∈ st'.files :=
  setup_fallback_installs_console_and_file none "LOG_CFG" wDefault st0
    (Or.inl rfl) rfl rfl

/-- C5: when a resolved configuration file fails to load, `setup_logging`
returns normally, a record at ERROR severity with an exception record
attached has been logged, and the default fallback configuration is
installed. -/
theorem setup_load_failure_logged (cfg : Option String) (ev : String)
    (w : World) (st : LogState) (p : String)
    (hres : resolve_logging_config_path cfg ev w.env w.probe = some p)
    (hfc : w.fileConfig p = none)
    (hm : w.mkdirOk "logs" = true) (ho : w.openOk "logs/app.log" = true) :
    ∃ st', setup_logging cfg ev w st = Except.ok st' ∧
      (⟨MODULE_LOGGER, ERROR_LEVEL,
        "Failed to configure logging from " ++ p ++ ". Falling back to basicConfig.",
        true⟩ : Record) ∈ st'.records ∧
      st'.rootHandlers =
        [Handler.console LOG_FORMAT LOG_DATEFMT (fallbackLevel w.env),
         Handler.rotatingFile "logs/app.log" 5000000 5 "utf-8"
           LOG_FORMAT LOG_DATEFMT (fallbackLevel w.env)] := by
  have heq : setup_logging cfg ev w st =
      fallbackConfig w { st with records := st.records ++
        [⟨MODULE_LOGGER, ERROR_LEVEL,
          "Failed to configure logging from " ++ p ++ ". Falling back to basicConfig.",
          true⟩] } := by
    simp only [setup_logging, hres, hfc]
  rw [heq, fallbackConfig_ok_state w _ hm ho]
  refine ⟨_, rfl, ?_, rfl⟩
  simp

/-- Closed instance of `setup_load_failure_logged`: the default config file
exists but is malformed; the failure is logged and the fallback installed. -/
theorem setup_load_failure_logged_witness :
    ∃ st', setup_logging none "LOG_CFG" wLoadFail st0 = Except.ok st' ∧
      (⟨MODULE_LOGGER, ERROR_LEVEL,
        "Failed to configure logging from " ++ DEFAULT_LOGGING_CONF_PATH ++
          ". Falling back to basicConfig.",
        true⟩ : Record) ∈ st'.records ∧
      st'.rootHandlers =
        [Handler.console LOG_FORMAT LOG_DATEFMT (fallbackLevel wLoadFail.env),
         Handler.rotatingFile "logs/app.log" 5000000 5 "utf-8"
           LOG_FORMAT LOG_DATEFMT (fallbackLevel wLoadFail.env)] :=
  setup_load_failure_logged none "LOG_CFG" wLoadFail st0
    DEFAULT_LOGGING_CONF_PATH rfl rfl rfl rfl

lemma fallbackLevel_iff (env : String → Option String) :
    (fallbackLevel env = DEBUG_LEVEL ↔ env "DEBUG" = some "1") ∧
    (env "DEBUG" ≠ some "1" → fallbackLevel env = INFO_LEVEL) := by
  unfold fallbackLevel
  cases h : env "DEBUG" with
  | none => simp [DEBUG_LEVEL, INFO_LEVEL]
  | some v => by_cases hv : v = "1" <;> simp [hv, DEBUG_LEVEL, INFO_LEVEL]

/-- C6: on the fallback path the selected root level is DEBUG exactly when
the environment variable `DEBUG` holds the string `"1"`; any other value, or
its absence, selects INFO. -/
theorem setup_fallback_level_debug_iff (cfg : Option String) (ev : String)
    (w : World) (st : LogState) (hfb : FallbackTaken cfg ev w)
    (hm : w.mkdirOk "logs" = true) (ho : w.openOk "logs/app.log" = true) :
    ∃ st', setup_logging cfg ev w st = Except.ok st' ∧
      (st'.rootLevel = DEBUG_LEVEL ↔ w.env "DEBUG" = some "1") ∧
      (w.env "DEBUG" ≠ some "1" → st'.rootLevel = INFO_LEVEL) := by
  obtain ⟨st', hok, hlvl, _, _, _, _⟩ := setup_fallback_result cfg ev w st hfb hm ho
  refine ⟨st', hok, ?_, ?_⟩ <;> rw [hlvl]
  · exact (fallbackLevel_iff w.env).1
  · exact (fallbackLevel_iff w.env).2

/-- Closed instance of `setup_fallback_level_debug_iff` with `DEBUG=1` in
the environment and no config file. -/
theorem setup_fallback_level_debug_iff_witness :
    ∃ st', setup_logging none "LOG_CFG" wDebugEnv st0 = Except.ok st' ∧
      (st'.rootLevel = DEBUG_LEVEL ↔ wDebugEnv.env "DEBUG" = some "1") ∧
      (wDebugEnv.env "DEBUG" ≠ some "1" → st'.rootLevel = INFO_LEVEL) :=
  setup_fallback_level_debug_iff none "LOG_CFG" wDebugEnv st0 (Or.inl rfl) rfl rfl

/-- C7: when the resolved configuration file loads successfully,
`setup_logging` records the load with `disable_existing_loggers=False`
(existing loggers preserved) and returns at once: the root handlers are
exactly those the file defines, no fallback console or rotating-file
handler is installed, no directory is created and no log file is opened. -/
theorem setup_config_success_frame (cfg : Option String) (ev : String)
    (w : World) (st : LogState) (p : String) (eff : ConfigEffect)
    (hres : resolve_logging_config_path cfg ev w.env w.probe = some p)
    (hfc : w.fileConfig p = some eff) :
    ∃ st', setup_logging cfg ev w st = Except.ok st' ∧
      st'.dirs = st.dirs ∧ st'.files = st.files ∧
      st'.configCalls = st.configCalls ++ [(p, false)] ∧
      st'.rootHandlers = eff.handlers.map Handler.fromConfig ∧
      (∀ hd ∈ st'.rootHandlers, ∀ fmt dfmt lvl,
        hd ≠ Handler.console fmt dfmt lvl) ∧
      (∀ hd ∈ st'.rootHandlers, ∀ pa mb bc enc fmt dfmt lvl,
        hd ≠ Handler.rotatingFile pa mb bc enc fmt dfmt lvl) := by
  refine ⟨{ st with
      rootHandlers := eff.handlers.map Handler.fromConfig,
      rootLevel := eff.level,
      configCalls := st.configCalls ++ [(p, false)],
      records := st.records ++
        [⟨MODULE_LOGGER, DEBUG_LEVEL, "Logging configured from file: " ++ p, false⟩] },
    ?_, rfl, rfl, rfl, rfl, ?_, ?_⟩
  · simp only [setup_logging, hres, hfc]
  · intro hd hmem fmt dfmt lvl
    simp only [List.mem_map] at hmem
    obtain ⟨i, _, hi⟩ := hmem
    rw [← hi]
    intro hcon
    exact Handler.noConfusion hcon
  · intro hd hmem pa mb bc enc fmt dfmt lvl
    simp only [List.mem_map] at hmem
    obtain ⟨i, _, hi⟩ := hmem
    rw [← hi]
    intro hcon
    exact Handler.noConfusion hcon

/-- Closed instance of `setup_config_success_frame`: the default config file
exists and loads; nothing of the fallback state appears. -/
theorem setup_config_success_frame_witness :
    ∃ st', setup_logging none "LOG_CFG" wConfig st0 = Except.ok st' ∧
      st'.dirs = st0.dirs ∧ st'.files = st0.files ∧
      st'.configCalls = st0.configCalls ++ [(DEFAULT_LOGGING_CONF_PATH, false)] ∧
      st'.rootHandlers = (ConfigEffect.handlers ⟨[7], 15⟩).map Handler.fromConfig ∧
      (∀ hd ∈ st'.rootHandlers, ∀ fmt dfmt lvl,
        hd ≠ Handler.console fmt dfmt lvl) ∧
      (∀ hd ∈ st'.rootHandlers, ∀ pa mb bc enc fmt dfmt lvl,
        hd ≠ Handler.rotatingFile pa mb bc enc fmt dfmt lvl) :=
  setup_config_success_frame none "LOG_CFG" wConfig st0
    DEFAULT_LOGGING_CONF_PATH ⟨[7], 15⟩ rfl rfl

/-- C2 counterexample: with no config file and an unwritable working
directory, the `mkdir` of the fallback branch raises and `setup_logging`
propagates the exception to its caller. -/
theorem setup_raises_on_mkdir_failure :
    setup_logging none "LOG_CFG" wBadFs st0 = Except.error () := rfl

/-- C2 amended: `setup_logging` catches resolution and config-load failures,
but a filesystem error while creating the fallback log directory or opening
the log file propagates; whenever those two operations succeed it returns
normally, and on the fallback path it leaves a working (nonempty) handler
configuration installed. -/
theorem setup_no_raise_when_fallback_fs_ok (cfg : Option String) (ev : String)
    (w : World) (st : LogState)
    (hm : w.mkdirOk "logs" = true) (ho : w.openOk "logs/app.log" = true) :
    ∃ st', setup_logging cfg ev w st = Except.ok st' ∧
      (FallbackTaken cfg ev w → st'.rootHandlers ≠ []) := by
  cases hres : resolve_logging_config_path cfg ev w.env w.probe with
  | none =>
    obtain ⟨st', hok, _, hh, _, _, _⟩ :=
      setup_fallback_result cfg ev w st (Or.inl hres) hm ho
    refine ⟨st', hok, fun _ => ?_⟩
    rw [hh]
    simp
  | some p =>
    cases hfc : w.fileConfig p with
    | none =>
      obtain ⟨st', hok, _, hh, _, _, _⟩ :=
        setup_fallback_result cfg ev w st (Or.inr ⟨p, hres, hfc⟩) hm ho
      refine ⟨st', hok, fun _ => ?_⟩
      rw [hh]
      simp
    | some eff =>
      refine ⟨{ st with
          rootHandlers := eff.handlers.map Handler.fromConfig,
          rootLevel := eff.level,
          configCalls := st.configCalls ++ [(p, false)],
          records := st.records ++
            [⟨MODULE_LOGGER, DEBUG_LEVEL, "Logging configured from file: " ++ p, false⟩] },
        ?_, ?_⟩
      · simp only [setup_logging, hres, hfc]
      · intro hfb
        exfalso
        cases hfb with
        | inl h => rw [h] at hres; exact Option.noConfusion hres
        | inr hex =>
          obtain ⟨q, hq, hfcq⟩ := hex
          rw [hres] at hq
          injection hq with hq
          subst hq
          rw [hfcq] at hfc
          exact Option.noConfusion hfc

/-- Closed instance of `setup_no_raise_when_fallback_fs_ok` on a writable
filesystem with no config file anywhere. -/
theorem setup_no_raise_when_fallback_fs_ok_witness :
    ∃ st', setup_logging none "LOG_CFG" wDefault st0 = Except.ok st' ∧
      (FallbackTaken none "LOG_CFG" wDefault → st'.rootHandlers ≠ []) :=
  setup_no_raise_when_fallback_fs_ok none "LOG_CFG" wDefault st0 rfl rfl

/-- The state after an initial fallback run of `setup_logging` from the
pristine state. -/
def afterFirstFallback : LogState :=
  okOr (setup_logging none "LOG_CFG" wDefault st0) st0

/-- The state after a second consecutive fallback run of `setup_logging`. -/
def afterSecondFallback : LogState :=
  okOr (setup_logging none "LOG_CFG" wDefault afterFirstFallback) st0

/-- C4 counterexample: two consecutive fallback runs of `setup_logging`
leave the root logger with exactly two handlers both times; the handler
count does not grow, because `basicConfig(force=True)` removes every
previously installed handler, the rotating file handler of the first call
included, before the second call reinstalls its own pair. -/
theorem setup_repeated_fallback_no_duplicate :
    setup_logging none "LOG_CFG" wDefault st0 = Except.ok afterFirstFallback ∧
    setup_logging none "LOG_CFG" wDefault afterFirstFallback =
      Except.ok afterSecondFallback ∧
    afterFirstFallback.rootHandlers.length = 2 ∧
    afterSecondFallback.rootHandlers.length = 2 ∧
    ¬ afterFirstFallback.rootHandlers.length <
        afterSecondFallback.rootHandlers.length :=
  ⟨rfl, rfl, rfl, rfl, by decide⟩

lemma setup_fallback_ok_handlers (cfg : Option String) (ev : String)
    (w : World) (st st' : LogState) (hfb : FallbackTaken cfg ev w)
    (hok : setup_logging cfg ev w st = Except.ok st') :
    st'.rootHandlers =
      [Handler.console LOG_FORMAT LOG_DATEFMT (fallbackLevel w.env),
       Handler.rotatingFile "logs/app.log" 5000000 5 "utf-8"
         LOG_FORMAT LOG_DATEFMT (fallbackLevel w.env)] := by
  have hex : ∃ stm, fallbackConfig w stm = Except.ok st' := by
    cases hfb with
    | inl h =>
      refine ⟨st, ?_⟩
      rw [← hok]
      unfold setup_logging
      rw [h]
    | inr hx =>
      obtain ⟨p, hp, hfc⟩ := hx
      refine ⟨{ st with records := st.records ++
          [⟨MODULE_LOGGER, ERROR_LEVEL,
            "Failed to configure logging from " ++ p ++ ". Falling back to basicConfig.",
            true⟩] }, ?_⟩
      rw [← hok]
      simp only [setup_logging, hp, hfc]
  obtain ⟨stm, hfcall⟩ := hex
  cases hm : w.mkdirOk "logs" with
  | false =>
    rw [fallbackConfig_err w stm (Or.inl hm)] at hfcall
    exact Except.noConfusion hfcall
  | true =>
    cases ho : w.openOk "logs/app.log" with
    | false =>
      rw [fallbackConfig_err w stm (Or.inr ho)] at hfcall
      exact Except.noConfusion hfcall
    | true =>
      rw [fallbackConfig_ok_state w stm hm ho] at hfcall
      injection hfcall with hfcall
      rw [← hfcall]

/-- C4 amended: across any two consecutive `setup_logging` calls that both
take the fallback path and return normally, the root handler count does not
grow: each such call leaves exactly two handlers (the force-installed
console handler and the freshly appended rotating file handler), the
previous file handler having been removed by `basicConfig(force=True)`. -/
theorem setup_repeated_fallback_count_stable (cfg1 cfg2 : Option String)
    (ev1 ev2 : String) (w1 w2 : World) (st st1 st2 : LogState)
    (hfb1 : FallbackTaken cfg1 ev1 w1)
    (hok1 : setup_logging cfg1 ev1 w1 st = Except.ok st1)
    (hfb2 : FallbackTaken cfg2 ev2 w2)
    (hok2 : setup_logging cfg2 ev2 w2 st1 = Except.ok st2) :
    st1.rootHandlers.length = 2 ∧ st2.rootHandlers.length = 2 ∧
    ¬ st1.rootHandlers.length < st2.rootHandlers.length := by
  have h1 := setup_fallback_ok_handlers cfg1 ev1 w1 st st1 hfb1 hok1
  have h2 := setup_fallback_ok_handlers cfg2 ev2 w2 st1 st2 hfb2 hok2
  rw [h1, h2]
  refine ⟨by simp, by simp, by simp⟩

/-- Closed instance of `setup_repeated_fallback_count_stable` on the
concrete double-fallback run. -/
theorem setup_repeated_fallback_count_stable_witness :
    afterFirstFallback.rootHandlers.length = 2 ∧
    afterSecondFallback.rootHandlers.length = 2 ∧
    ¬ afterFirstFallback.rootHandlers.length <
        afterSecondFallback.rootHandlers.length :=
  setup_repeated_fallback_count_stable none none "LOG_CFG" "LOG_CFG"
    wDefault wDefault st0 afterFirstFallback afterSecondFallback
    (Or.inl rfl) rfl (Or.inl rfl) rfl

/-- C9: `get_logger` is a total function of the optional name (it never
fails); a missing or empty name yields the fixed default name; a nonempty
name is used as given; and because handles are identified by name, setting
a level through one handle is observed through every handle obtained for
the same name. -/
theorem get_logger_registry_semantics :
    get_logger none = DEFAULT_LOGGER_NAME ∧
    get_logger (some "") = DEFAULT_LOGGER_NAME ∧
    (∀ n, n ≠ "" → get_logger (some n) = n) ∧
    (∀ (reg : LoggerRegistry) (name : Option String) (lvl : Nat),
      setLoggerLevel reg (get_logger name) lvl (get_logger name) = lvl) := by
  refine ⟨rfl, rfl, ?_, ?_⟩
  · intro n hn
    simp [get_logger, hn]
  · intro reg name lvl
    simp [setLoggerLevel]

/-- Closed instance of `get_logger_registry_semantics`: the handle for
`"pump_sensor"` is the name itself, and mutating its level is observed on a
second handle for the same name. -/
theorem get_logger_registry_semantics_witness :
    get_logger (some "pump_sensor") = "pump_sensor" ∧
    setLoggerLevel (fun _ => 30) (get_logger (some "pump_sensor")) 10
      (get_logger (some "pump_sensor")) = 10 :=
  ⟨get_logger_registry_semantics.2.2.1 "pump_sensor" (by decide),
   get_logger_registry_semantics.2.2.2 (fun _ => 30) (some "pump_sensor") 10⟩
